import Mathlib

/-!
Verification of the SEO analysis core of SeoInspector (`src/server/routes.ts`).

The analysis pipeline is shallowly embedded: the parsed HTML document (produced
by the external `cheerio` library) is modelled by the `Doc` structure, which
records the results of the fixed queries the seven extractors perform; JS
number arithmetic is modelled in `ℚ` with `Math.round` as `jsRound`; the
external WHATWG `URL` operations (which can throw) are modelled by `UrlOps`,
with `Option` encoding a thrown `TypeError`.  Each extractor, scoring function
and classifier of `routes.ts` is translated to a Lean definition of the same
name, and the theorems at the end of the file settle the specification claims.
-/

namespace SeoInspector

/-! ### Character and string helpers (JS semantics) -/

/-- The space character (code 32). -/
def spaceChar : Char := Char.ofNat 32

/-- JS whitespace as matched by `\s` (restricted to the ASCII whitespace
characters: tab, line feed, vertical tab, form feed, carriage return, space). -/
def isWsChar (c : Char) : Bool :=
  c = Char.ofNat 9 || c = Char.ofNat 10 || c = Char.ofNat 11 ||
  c = Char.ofNat 12 || c = Char.ofNat 13 || c = spaceChar

/-- Sentence punctuation matched by the `analyzeContent` regex `[.!?]`:
full stop (46), exclamation mark (33), question mark (63). -/
def isSentencePunct (c : Char) : Bool :=
  c = Char.ofNat 46 || c = Char.ofNat 33 || c = Char.ofNat 63

/-- JS `String.prototype.includes`: `jsIncludes hay needle` is true when
`needle` occurs as a contiguous substring of `hay`. -/
def jsIncludes (hay needle : String) : Bool :=
  go needle.toList hay.toList
where
  go (n : List Char) : List Char → Bool
    | [] => n.isEmpty
    | c :: cs => n.isPrefixOf (c :: cs) || go n cs

/-- One step (from the right) of splitting a string on maximal runs of
separator characters.  The state is the list of tokens built so far together
with a flag recording whether the character immediately to the right was a
separator (so that a run of separators produces a single split point). -/
def splitStep (p : Char → Bool) (c : Char) (st : List (List Char) × Bool) :
    List (List Char) × Bool :=
  if p c then
    if st.2 then st else ([] :: st.1, true)
  else
    match st.1 with
    | [] => ([[c]], false)
    | t :: ts => ((c :: t) :: ts, false)

/-- JS `str.split(/[p]+/)`: split on maximal runs of characters satisfying
`p`.  Mirrors JS `String.prototype.split` with a one-or-more character-class
regex: the empty string yields `[[]]` (JS: `"".split(/\s+/)` is `[""]`),
and leading/trailing separator runs yield empty edge tokens. -/
def splitRuns (p : Char → Bool) (l : List Char) : List (List Char) :=
  (l.foldr (splitStep p) ([[]], false)).1

/-- One step (from the right) of `replace(/\s+/g, ' ')`: a whitespace
character is dropped when the character to its right was already whitespace,
and becomes a single space otherwise. -/
def replaceStep (c : Char) (st : List Char × Bool) : List Char × Bool :=
  if isWsChar c then
    if st.2 then st else (spaceChar :: st.1, true)
  else (c :: st.1, false)

/-- JS `str.replace(/\s+/g, ' ')`: each maximal whitespace run becomes one
space character. -/
def replaceWsRuns (l : List Char) : List Char :=
  (l.foldr replaceStep ([], false)).1

/-- JS `String.prototype.trim`: strip leading and trailing whitespace. -/
def trimWs (l : List Char) : List Char :=
  ((l.dropWhile isWsChar).reverse.dropWhile isWsChar).reverse

/-- The cleaned body text computed by `analyzeContent`:
`rawText.replace(/\s+/g, ' ').trim()`. -/
def cleanTextL (l : List Char) : List Char :=
  trimWs (replaceWsRuns l)

/-- String version of `cleanTextL`. -/
def cleanText (s : String) : String :=
  String.mk (cleanTextL s.toList)

/-- JS `str.trim()` on a `String`. -/
def jsTrim (s : String) : String :=
  String.mk (trimWs s.toList)

/-- JS `Math.round`: round half toward positive infinity.  JS number
arithmetic is modelled in `ℚ`.  (`Rat.floor` is the floor function on `ℚ`;
see `jsRound_eq`.) -/
def jsRound (q : ℚ) : ℤ := Rat.floor (q + 1/2)

/-- JS `Math.abs` on rationals. -/
def jsAbs (q : ℚ) : ℚ := if q < 0 then -q else q

/-- JS `Math.min` on rationals. -/
def jsMin (a b : ℚ) : ℚ := if a ≤ b then a else b

/-- JS `Math.max` on rationals. -/
def jsMax (a b : ℚ) : ℚ := if a ≤ b then b else a

/-- JS `Math.min` on integer-valued numbers. -/
def jsMinI (a b : ℤ) : ℤ := if a ≤ b then a else b

/-- JS `Math.max` on integer-valued numbers. -/
def jsMaxI (a b : ℤ) : ℤ := if a ≤ b then b else a

/-- JS `String.prototype.startsWith`. -/
def jsStartsWith (s pre : String) : Bool :=
  pre.toList.isPrefixOf s.toList

/-- JS `String.prototype.toLowerCase` (ASCII range, which covers the fixed
phrase table it is compared against). -/
def jsToLower (s : String) : String :=
  String.mk (s.toList.map Char.toLower)

/-! ### The parsed document and the external URL collaborator -/

/-- An `<img>` element as read by `extractImages`: the `src` and `alt`
attributes, a missing attribute reading as `''` (the code's `attr(..) || ''`). -/
structure ImgEl where
  src : String
  alt : String
deriving DecidableEq

/-- An `<a>` element as read by `extractLinks`: the `href` and `rel`
attributes (missing reads as `''`) and the element text. -/
structure AnchorEl where
  href : String
  text : String
  rel : String
deriving DecidableEq

/-- The parsed HTML document view: the results of the fixed cheerio queries
performed by the seven extractors of `routes.ts`.  The HTML parser itself is
an external collaborator; this structure is its queried output.  String fields
holding attribute values read a missing element or attribute as `''`, matching
the code's `... || ''`; `viewport` keeps the element/attribute distinction
because `checkMobileFriendliness` tests element presence while
`extractMetaTags` tests content truthiness. -/
structure Doc where
  /-- The query `$('title').text()`. -/
  title : String
  /-- The query `$('meta[name="description"]').attr('content') || ''`. -/
  metaDescription : String
  /-- The query `$('link[rel="canonical"]').attr('href') || ''`. -/
  canonicalUrl : String
  /-- Set to `none` when no `<meta name="viewport">` element exists, and to `some c`
  when one exists with content `c` (`''` if the attribute is missing). -/
  viewport : Option String
  /-- The query `$('meta[name="robots"]').attr('content') || ''`. -/
  robots : String
  ogTitle : String
  ogDescription : String
  ogUrl : String
  ogImage : String
  ogType : String
  twitterCard : String
  twitterTitle : String
  twitterDescription : String
  twitterImage : String
  /-- text of each `<h1>` element, in document order -/
  h1 : List String
  h2 : List String
  h3 : List String
  h4 : List String
  h5 : List String
  h6 : List String
  imgs : List ImgEl
  anchors : List AnchorEl
  /-- The query `$('script').length`. -/
  scriptCount : Nat
  /-- The query `$('link[rel="stylesheet"]').length`. -/
  cssCount : Nat
  /-- The query `$('iframe').length`. -/
  iframeCount : Nat
  /-- The query `$('style').text()`. -/
  styleText : String
  /-- The query `$('html').attr('class') || ''`. -/
  htmlClass : String
  /-- The query `$('body').attr('class') || ''`. -/
  bodyClass : String
  /-- The query `$('p').length`. -/
  pCount : Nat
  /-- The query `$('body').text()`. -/
  bodyText : String
deriving DecidableEq

/-- The document with every queried collection empty: what cheerio yields for
an empty or element-free input. -/
def emptyDoc : Doc where
  title := ""
  metaDescription := ""
  canonicalUrl := ""
  viewport := none
  robots := ""
  ogTitle := ""
  ogDescription := ""
  ogUrl := ""
  ogImage := ""
  ogType := ""
  twitterCard := ""
  twitterTitle := ""
  twitterDescription := ""
  twitterImage := ""
  h1 := []
  h2 := []
  h3 := []
  h4 := []
  h5 := []
  h6 := []
  imgs := []
  anchors := []
  scriptCount := 0
  cssCount := 0
  iframeCount := 0
  styleText := ""
  htmlClass := ""
  bodyClass := ""
  pCount := 0
  bodyText := ""

/-- The WHATWG URL operations (Node's global `URL` class), an external
collaborator of the extractors.  `resolve href base` models
`new URL(href, base).href`, with `none` modelling a thrown `TypeError`
(resolution of a malformed reference — e.g. `new URL('//[', base)` throws
because `[` starts an invalid bracketed host).  `origin u` models
`new URL(u).origin`; the source URL is validated before the core runs, so
origin extraction is total. -/
structure UrlOps where
  resolve : String → String → Option String
  origin : String → String

/-! ### Meta tags extractor (`extractMetaTags`, `calculateMetaTagsScore`) -/

/-- A meta tag fact: content and a qualitative status. -/
structure MetaField where
  content : String
  status : String
deriving DecidableEq

/-- A meta tag fact that also records the content length (title, description). -/
structure MetaLenField where
  content : String
  status : String
  length : Nat
deriving DecidableEq

/-- The fact bundle returned by `extractMetaTags` (the `basic`, `openGraph`
and `twitter` groups flattened into prefixed fields). -/
structure MetaTagFacts where
  title : MetaLenField
  description : MetaLenField
  canonical : MetaField
  viewport : MetaField
  robots : MetaField
  ogTitle : MetaField
  ogDescription : MetaField
  ogUrl : MetaField
  ogImage : MetaField
  ogType : MetaField
  twitterCard : MetaField
  twitterTitle : MetaField
  twitterDescription : MetaField
  twitterImage : MetaField
  score : ℤ
deriving DecidableEq

/-- Title contribution to `calculateMetaTagsScore` (20 points max):
`+10` for existence, then `+10` for optimal length 30–70, else `+5`. -/
def titlePoints (title : String) : ℤ :=
  if title ≠ "" then
    10 + (if 30 ≤ title.length ∧ title.length ≤ 70 then 10
          else if 0 < title.length then 5 else 0)
  else 0

/-- Description contribution (20 points max): `+10` for existence, then `+10`
for optimal length 120–160, else `+5`. -/
def descriptionPoints (description : String) : ℤ :=
  if description ≠ "" then
    10 + (if 120 ≤ description.length ∧ description.length ≤ 160 then 10
          else if 0 < description.length then 5 else 0)
  else 0

/-- Open Graph contribution (20 points max): `og:title` 5, `og:description` 5,
`og:image` 10. -/
def openGraphPoints (ogTitle ogDescription ogImage : String) : ℤ :=
  (if ogTitle ≠ "" then 5 else 0) + (if ogDescription ≠ "" then 5 else 0) +
  (if ogImage ≠ "" then 10 else 0)

/-- Twitter card contribution (20 points max): `+10` for presence, `+10` when
the card value is `summary` or `summary_large_image`. -/
def twitterPoints (twitterCard : String) : ℤ :=
  (if twitterCard ≠ "" then 10 else 0) +
  (if twitterCard ≠ "" ∧ (twitterCard = "summary" ∨ twitterCard = "summary_large_image")
   then 10 else 0)

/-- Function `calculateMetaTagsScore` of `routes.ts`: accumulate the point table
(maximum raw score 100), then `Math.round((score / maxScore) * 100)`. -/
def calculateMetaTagsScore
    (title description canonical viewport ogTitle ogDescription ogImage twitterCard :
      String) : ℤ :=
  let score : ℤ :=
    titlePoints title + descriptionPoints description +
    (if canonical ≠ "" then 10 else 0) + (if viewport ≠ "" then 10 else 0) +
    openGraphPoints ogTitle ogDescription ogImage + twitterPoints twitterCard
  jsRound ((score : ℚ) / 100 * 100)

/-- Function `extractMetaTags` of `routes.ts`: read the meta tag contents from the
document, attach the status labels, and the score.  The `url` argument is
unused, as in the source. -/
def extractMetaTags (d : Doc) (_url : String) : MetaTagFacts :=
  let title := d.title
  let metaDescription := d.metaDescription
  let canonicalUrl := d.canonicalUrl
  let viewport := d.viewport.getD ("")
  let present : String → String := fun c => if c ≠ "" then "present" else "missing"
  { title := ⟨title,
      if 0 < title.length then
        (if 70 < title.length then "too_long"
         else if title.length < 30 then "too_short" else "good")
      else "missing",
      title.length⟩
    description := ⟨metaDescription,
      if 0 < metaDescription.length then
        (if 160 < metaDescription.length then "too_long"
         else if metaDescription.length < 120 then "too_short" else "good")
      else "missing",
      metaDescription.length⟩
    canonical := ⟨canonicalUrl, present canonicalUrl⟩
    viewport := ⟨viewport, present viewport⟩
    robots := ⟨d.robots, present d.robots⟩
    ogTitle := ⟨d.ogTitle, present d.ogTitle⟩
    ogDescription := ⟨d.ogDescription, present d.ogDescription⟩
    ogUrl := ⟨d.ogUrl, present d.ogUrl⟩
    ogImage := ⟨d.ogImage, present d.ogImage⟩
    ogType := ⟨d.ogType, present d.ogType⟩
    twitterCard := ⟨d.twitterCard, present d.twitterCard⟩
    twitterTitle := ⟨d.twitterTitle, present d.twitterTitle⟩
    twitterDescription := ⟨d.twitterDescription, present d.twitterDescription⟩
    twitterImage := ⟨d.twitterImage, present d.twitterImage⟩
    score := calculateMetaTagsScore title metaDescription canonicalUrl viewport
      d.ogTitle d.ogDescription d.ogImage d.twitterCard }

/-! ### Headings extractor -/

/-- One collected heading: its trimmed text and the constant count `1`. -/
structure HeadingEntry where
  text : String
  count : Nat
deriving DecidableEq

/-- The per-level heading record built by `extractHeadings`. -/
structure HeadingsByLevel where
  h1 : List HeadingEntry
  h2 : List HeadingEntry
  h3 : List HeadingEntry
  h4 : List HeadingEntry
  h5 : List HeadingEntry
  h6 : List HeadingEntry
deriving DecidableEq

/-- The `analysis` part of the headings fact bundle. -/
structure HeadingAnalysis where
  h1Count : Nat
  hasProperH1 : Bool
  hasLogicalStructure : Bool
  status : String
deriving DecidableEq

/-- The fact bundle returned by `extractHeadings`. -/
structure HeadingFacts where
  headings : HeadingsByLevel
  analysis : HeadingAnalysis
deriving DecidableEq

/-- Function `checkLogicalHeadingStructure` of `routes.ts`: false unless exactly one
`h1`; false when `h3`/`h4` appear without any `h2`. -/
def checkLogicalHeadingStructure (h : HeadingsByLevel) : Bool :=
  if h.h1.length ≠ 1 then false
  else if h.h2.length = 0 ∧ (0 < h.h3.length ∨ 0 < h.h4.length) then false
  else if 0 < h.h3.length ∧ h.h2.length = 0 then false
  else true

/-- Function `calculateHeadingStatus` of `routes.ts`. -/
def calculateHeadingStatus (h1Count : Nat) (hasLogicalStructure : Bool) : String :=
  if h1Count = 1 ∧ hasLogicalStructure then "good"
  else if h1Count = 1 ∨ hasLogicalStructure then "needs_improvement"
  else "poor"

/-- Function `extractHeadings` of `routes.ts`: collect the trimmed text of each
heading (count always 1 per entry) and analyze the structure. -/
def extractHeadings (d : Doc) : HeadingFacts :=
  let entries : List String → List HeadingEntry := fun ts => ts.map fun t => ⟨jsTrim t, 1⟩
  let headings : HeadingsByLevel :=
    ⟨entries d.h1, entries d.h2, entries d.h3, entries d.h4, entries d.h5, entries d.h6⟩
  let h1Count := headings.h1.length
  let hasLogicalStructure := checkLogicalHeadingStructure headings
  { headings := headings
    analysis :=
      { h1Count := h1Count
        hasProperH1 := h1Count == 1
        hasLogicalStructure := hasLogicalStructure
        status := calculateHeadingStatus h1Count hasLogicalStructure } }

/-! ### Images extractor -/

/-- One collected image record (`size` is always `null` in the source). -/
structure ImageRec where
  src : String
  alt : String
  hasAlt : Bool
  size : Option String
deriving DecidableEq

/-- The `analysis` part of the image fact bundle. -/
structure ImageAnalysis where
  totalImages : Nat
  imagesWithAlt : Nat
  missingAltCount : Nat
  altTextPercentage : ℤ
  status : String
deriving DecidableEq

/-- The fact bundle returned by `extractImages`. -/
structure ImageFacts where
  images : List ImageRec
  analysis : ImageAnalysis
deriving DecidableEq

/-- Function `calculateImageStatus` of `routes.ts`. -/
def calculateImageStatus (totalImages missingAltCount : Nat) : String :=
  if totalImages = 0 ∨ missingAltCount = 0 then "good"
  else if (missingAltCount : ℚ) / totalImages < 0.2 then "needs_improvement"
  else "poor"

/-- The per-image body of `extractImages`: `new URL(src, url)` is applied
without a `try`/`catch`, so a failed resolution (`none`) aborts the whole
extractor. -/
def imgStep (ops : UrlOps) (url : String) (el : ImgEl) : Option ImageRec :=
  match (if jsStartsWith el.src ("http") then some el.src else ops.resolve el.src url) with
  | none => none
  | some fullSrc => some ⟨fullSrc, el.alt, decide (0 < el.alt.length), none⟩

/-- The `$('img').each` loop of `extractImages`: collect every image record,
propagating a thrown URL resolution. -/
def collectImages (ops : UrlOps) (url : String) : List ImgEl → Option (List ImageRec)
  | [] => some []
  | el :: rest =>
    match imgStep ops url el with
    | none => none
    | some r =>
      match collectImages ops url rest with
      | none => none
      | some rs => some (r :: rs)

/-- Function `extractImages` of `routes.ts`.  The result is `none` exactly when some
`src` that does not start with `http` fails URL resolution (the uncaught
`TypeError` of `new URL(src, url)`). -/
def extractImages (ops : UrlOps) (d : Doc) (url : String) : Option ImageFacts :=
  match collectImages ops url d.imgs with
  | none => none
  | some images =>
    let totalImages := images.length
    let imagesWithAlt := (images.filter (·.hasAlt)).length
    let missingAltCount := totalImages - imagesWithAlt
    some
      { images := images
        analysis :=
          { totalImages := totalImages
            imagesWithAlt := imagesWithAlt
            missingAltCount := missingAltCount
            altTextPercentage :=
              if 0 < totalImages then jsRound ((imagesWithAlt : ℚ) / totalImages * 100)
              else 100
            status := calculateImageStatus totalImages missingAltCount } }

/-! ### Links extractor -/

/-- One collected internal link. -/
structure InternalLink where
  text : String
  url : String
  isGeneric : Bool
deriving DecidableEq

/-- One collected external link. -/
structure ExternalLink where
  text : String
  url : String
  hasRel : Bool
deriving DecidableEq

/-- The `analysis` part of the link fact bundle. -/
structure LinkAnalysis where
  totalLinks : Nat
  internalLinks : Nat
  externalLinks : Nat
  genericInternalLinks : Nat
  externalLinksWithoutRel : Nat
  status : String
deriving DecidableEq

/-- The fact bundle returned by `extractLinks` (`links.internal`,
`links.external` and `analysis`). -/
structure LinkFacts where
  internal : List InternalLink
  external : List ExternalLink
  analysis : LinkAnalysis
deriving DecidableEq

/-- Function `isGenericLinkText` of `routes.ts`: the lowercased link text contains one
of the fixed generic phrases. -/
def isGenericLinkText (text : String) : Bool :=
  [("click here" : String), "read more", "learn more", "more info", "details", "here"].any
    fun generic => jsIncludes (jsToLower text) generic

/-- Function `calculateLinkStatus` of `routes.ts`. -/
def calculateLinkStatus
    (internalCount genericInternalCount externalCount externalWithoutRelCount : Nat) :
    String :=
  if internalCount = 0 then "poor"
  else
    let genericShare : ℚ :=
      if 0 < internalCount then (genericInternalCount : ℚ) / internalCount else 0
    let missingRelShare : ℚ :=
      if 0 < externalCount then (externalWithoutRelCount : ℚ) / externalCount else 0
    if 0.2 < genericShare ∨ 0.2 < missingRelShare then "needs_improvement"
    else "good"

/-- The skip-and-resolve logic of the `$('a').each` loop in `extractLinks`:
`none` when the anchor is skipped — empty, `javascript:`-scheme or bare-`#`
href, or (for a non-`http`-prefixed href) a URL resolution that throws, which
this loop catches and turns into a skip. -/
def linkDest (ops : UrlOps) (url : String) (a : AnchorEl) : Option String :=
  if a.href = "" ∨ jsStartsWith a.href ("javascript:") ∨ a.href = "#" then none
  else if jsStartsWith a.href ("http") then some a.href
  else ops.resolve a.href url

/-- Function `extractLinks` of `routes.ts`: classify each non-skipped anchor as
internal or external by `fullUrl.startsWith(baseUrl)` where `baseUrl` is the
origin of the source URL, then compute the analysis counts. -/
def extractLinks (ops : UrlOps) (d : Doc) (url : String) : LinkFacts :=
  let baseUrl := ops.origin url
  let internal : List InternalLink := d.anchors.filterMap fun a =>
    match linkDest ops url a with
    | none => none
    | some fullUrl =>
      if jsStartsWith fullUrl baseUrl then
        some ⟨jsTrim a.text, fullUrl, isGenericLinkText (jsTrim a.text)⟩
      else none
  let external : List ExternalLink := d.anchors.filterMap fun a =>
    match linkDest ops url a with
    | none => none
    | some fullUrl =>
      if jsStartsWith fullUrl baseUrl then none
      else some ⟨jsTrim a.text, fullUrl,
        jsIncludes a.rel ("noopener") || jsIncludes a.rel ("noreferrer")⟩
  let genericInternalLinks := (internal.filter (·.isGeneric)).length
  let externalLinksWithoutRel := (external.filter fun l => !l.hasRel).length
  { internal := internal
    external := external
    analysis :=
      { totalLinks := internal.length + external.length
        internalLinks := internal.length
        externalLinks := external.length
        genericInternalLinks := genericInternalLinks
        externalLinksWithoutRel := externalLinksWithoutRel
        status := calculateLinkStatus internal.length genericInternalLinks
            external.length externalLinksWithoutRel } }

/-! ### Performance estimator -/

/-- The resource counts of the performance fact bundle. -/
structure ResourceCounts where
  scripts : Nat
  styles : Nat
  images : Nat
  iframes : Nat
  total : Nat
deriving DecidableEq

/-- The fact bundle returned by `estimatePerformance`.  `estimatedLoadTime` is
kept as the exact number of tenths of a second (the source stores
`parseFloat((0.5 + total*0.1).toFixed(1))`, which is exactly this one-decimal
value); the derived display strings are not modelled. -/
structure PerformanceFacts where
  resources : ResourceCounts
  estimatedLoadTimeTenths : Nat
  score : ℤ
deriving DecidableEq

/-- The estimated load time in seconds as a rational. -/
def PerformanceFacts.estimatedLoadTimeValue (p : PerformanceFacts) : ℚ :=
  (p.estimatedLoadTimeTenths : ℚ) / 10

/-- Function `calculatePerformanceScore` of `routes.ts`: start from 100, subtract the
three penalty ladders, clamp with `Math.max(0, Math.min(100, score))`. -/
def calculatePerformanceScore (totalResources : Nat) (loadTime : ℚ) (scriptCount : Nat) :
    ℤ :=
  let p1 : ℤ :=
    if 50 < totalResources then 30
    else if 30 < totalResources then 20
    else if 15 < totalResources then 10 else 0
  let p2 : ℤ := if 3 < loadTime then 30 else if 2 < loadTime then 15
    else if 1 < loadTime then 5 else 0
  let p3 : ℤ := if 15 < scriptCount then 15 else if 10 < scriptCount then 10
    else if 5 < scriptCount then 5 else 0
  jsMaxI 0 (jsMinI 100 (100 - p1 - p2 - p3))

/-- Function `estimatePerformance` of `routes.ts`: count `<script>`, stylesheet
`<link>`, `<img>` and `<iframe>` resources; estimated load time is
`0.5 + total * 0.1` seconds. -/
def estimatePerformance (d : Doc) : PerformanceFacts :=
  let scriptCount := d.scriptCount
  let cssCount := d.cssCount
  let imageCount := d.imgs.length
  let iframeCount := d.iframeCount
  let totalResources := scriptCount + cssCount + imageCount + iframeCount
  let estimatedLoadTimeTenths := 5 + totalResources
  { resources :=
      ⟨scriptCount, cssCount, imageCount, iframeCount, totalResources⟩
    estimatedLoadTimeTenths := estimatedLoadTimeTenths
    score := calculatePerformanceScore totalResources
      ((estimatedLoadTimeTenths : ℚ) / 10) scriptCount }

/-! ### Mobile friendliness checker -/

/-- The feature flags of the mobile fact bundle. -/
structure MobileFeatures where
  hasViewport : Bool
  hasMediaQueries : Bool
  hasResponsiveIndicators : Bool
deriving DecidableEq

/-- The fact bundle returned by `checkMobileFriendliness`. -/
structure MobileFacts where
  features : MobileFeatures
  score : Nat
deriving DecidableEq

/-- Function `calculateMobileScore` of `routes.ts`: `+50` viewport, `+25` media
queries, `+25` responsive classes, and a `+20` fallback credit when the
viewport is present but neither other signal holds. -/
def calculateMobileScore (hasViewport hasMediaQueries hasResponsiveClasses : Bool) :
    Nat :=
  (if hasViewport then 50 else 0) +
  (if hasMediaQueries then 25 else 0) +
  (if hasResponsiveClasses then 25 else 0) +
  (if !hasMediaQueries && !hasResponsiveClasses && hasViewport then 20 else 0)

/-- Function `checkMobileFriendliness` of `routes.ts`: viewport element presence,
`@media` inside inline `<style>` text, and a `responsive` substring in the
`html`/`body` class attributes. -/
def checkMobileFriendliness (d : Doc) : MobileFacts :=
  let hasViewport := d.viewport.isSome
  let hasMediaQueries := jsIncludes d.styleText ("@media")
  let hasResponsiveClasses :=
    jsIncludes d.htmlClass ("responsive") || jsIncludes d.bodyClass ("responsive")
  { features :=
      { hasViewport := hasViewport
        hasMediaQueries := hasMediaQueries
        hasResponsiveIndicators := hasResponsiveClasses }
    score := calculateMobileScore hasViewport hasMediaQueries hasResponsiveClasses }

/-! ### Content analyzer -/

/-- The metrics of the content fact bundle.  `avgWordsPerSentence` is kept as
the exact rational (the report renders it with `toFixed(1)`, a display-only
formatting that is not modelled). -/
structure ContentMetrics where
  wordCount : Nat
  paragraphCount : Nat
  readabilityScore : ℚ
  avgWordsPerSentence : ℚ
deriving DecidableEq

/-- The fact bundle returned by `analyzeContent`. -/
structure ContentFacts where
  metrics : ContentMetrics
  score : ℚ
deriving DecidableEq

/-- Function `calculateContentScore` of `routes.ts`: word count ladder, paragraph
structure bonus, plus half the readability score, capped at 100. -/
def calculateContentScore (wordCount paragraphCount : Nat) (readabilityScore : ℚ) :
    ℚ :=
  let s1 : ℚ := if 1000 < wordCount then 30 else if 500 < wordCount then 20
    else if 300 < wordCount then 10 else 0
  let s2 : ℚ :=
    if 0 < paragraphCount ∧ (wordCount : ℚ) / paragraphCount < 150 then 20
    else if 0 < paragraphCount then 10 else 0
  jsMin 100 (s1 + s2 + readabilityScore * 0.5)

/-- Function `analyzeContent` of `routes.ts`: collapse the body text, count words and
sentences with the JS regex splits, and compute the readability score
`Math.min(100, Math.max(0, 100 - Math.abs(avg - 15) * 3))`. -/
def analyzeContent (d : Doc) : ContentFacts :=
  let ct := cleanTextL d.bodyText.toList
  let wordCount := (splitRuns isWsChar ct).length
  let paragraphCount := d.pCount
  let sentenceCount := (splitRuns isSentencePunct ct).length
  let avgWordsPerSentence : ℚ :=
    (wordCount : ℚ) / (if sentenceCount = 0 then 1 else (sentenceCount : ℚ))
  let readabilityScore : ℚ := jsMin 100 (jsMax 0 (100 - jsAbs (avgWordsPerSentence - 15) * 3))
  { metrics :=
      { wordCount := wordCount
        paragraphCount := paragraphCount
        readabilityScore := readabilityScore
        avgWordsPerSentence := avgWordsPerSentence }
    score := calculateContentScore wordCount paragraphCount readabilityScore }

/-! ### Aggregator, classifier and report assembly -/

/-- Function `calculateOverallScore` of `routes.ts`: the fixed-weight average of the
seven component scores, rounded. -/
def calculateOverallScore
    (metaTagsScore headingsScore imagesScore linksScore performanceScore
      mobileScore contentScore : ℚ) : ℤ :=
  jsRound (metaTagsScore * 0.2 + headingsScore * 0.1 + imagesScore * 0.1 +
    linksScore * 0.15 + performanceScore * 0.2 + mobileScore * 0.15 +
    contentScore * 0.1)

/-- A classifier finding: issues carry a severity, strengths and improvement
areas do not. -/
structure Finding where
  ftype : String
  severity : Option String
  title : String
  description : String
deriving DecidableEq

/-- The display string of the estimated load time,
`` `${estimatedLoadTime}s` `` — JS prints the one-decimal number without the
trailing `.0` when it is integral. -/
def loadTimeDisplay (tenths : Nat) : String :=
  if tenths % 10 = 0 then toString (tenths / 10) ++ "s"
  else toString (tenths / 10) ++ "." ++ toString (tenths % 10) ++ "s"

/-- Function `identifyCriticalIssues` of `routes.ts` (the `links` argument is unused,
as in the source). -/
def identifyCriticalIssues (metaTags : MetaTagFacts) (headings : HeadingFacts)
    (images : ImageFacts) (_links : LinkFacts) (performance : PerformanceFacts) :
    List Finding :=
  (if metaTags.title.content = "" then
    [⟨"meta", some ("critical"), "Missing title tag",
      "The title tag is essential for search engines to understand page content."⟩]
   else []) ++
  (if metaTags.description.content = "" then
    [⟨"meta", some ("critical"), "Missing meta description",
      "The meta description helps search engines understand your page and can improve click-through rates."⟩]
   else []) ++
  (if headings.analysis.h1Count = 0 then
    [⟨"heading", some ("critical"), "Missing H1 heading",
      "H1 is a critical element for SEO and should represent the main topic of your page."⟩]
   else if 1 < headings.analysis.h1Count then
    [⟨"heading", some ("warning"), "Multiple H1 headings",
      "Pages should only have one H1 heading to clearly indicate the main topic."⟩]
   else []) ++
  (if 0 < images.analysis.missingAltCount then
    [⟨"image", some ("critical"),
      "Missing alt text on " ++ toString images.analysis.missingAltCount ++ " images",
      "Alt text is essential for accessibility and image SEO."⟩]
   else []) ++
  (if performance.score < 50 then
    [⟨"performance", some ("critical"), "Slow page performance",
      "Page performance is poor, which can negatively impact user experience and SEO."⟩]
   else if 3 < performance.estimatedLoadTimeValue then
    [⟨"performance", some ("warning"), "Slow loading resources",
      "Page takes approximately " ++ loadTimeDisplay performance.estimatedLoadTimeTenths ++
        " to load, which may affect user experience."⟩]
   else [])

/-- Function `identifyStrengths` of `routes.ts`. -/
def identifyStrengths (metaTags : MetaTagFacts) (headings : HeadingFacts)
    (images : ImageFacts) (links : LinkFacts) (performance : PerformanceFacts)
    (mobile : MobileFacts) (content : ContentFacts) : List Finding :=
  (if 80 ≤ metaTags.score then
    [⟨"meta", none, "Good meta tag implementation",
      "Essential meta tags are well-implemented."⟩]
   else if metaTags.title.status = "good" then
    [⟨"meta", none, "Proper title tag",
      "The title tag is well-formatted and of optimal length."⟩]
   else []) ++
  (if headings.analysis.hasProperH1 && headings.analysis.hasLogicalStructure then
    [⟨"heading", none, "Proper heading structure",
      "The page has a single H1 and a logical heading hierarchy."⟩]
   else []) ++
  (if 90 ≤ images.analysis.altTextPercentage then
    [⟨"image", none, "Proper image alt text",
      "Most images have descriptive alt text, which is great for accessibility and SEO."⟩]
   else []) ++
  (if links.analysis.status = "good" then
    [⟨"link", none, "Good link structure",
      "Links use descriptive text and external links have proper rel attributes."⟩]
   else []) ++
  (if 80 ≤ performance.score then
    [⟨"performance", none, "Good page performance",
      "The page loads quickly and efficiently."⟩]
   else []) ++
  (if 80 ≤ mobile.score then
    [⟨"mobile", none, "Mobile responsive design",
      "The page is well-optimized for mobile devices."⟩]
   else []) ++
  (if 80 ≤ content.score then
    [⟨"content", none, "High-quality content",
      "The content is substantial and well-structured."⟩]
   else [])

/-- Function `identifyImprovementAreas` of `routes.ts`. -/
def identifyImprovementAreas (metaTags : MetaTagFacts) (_headings : HeadingFacts)
    (images : ImageFacts) (links : LinkFacts) (performance : PerformanceFacts)
    (mobile : MobileFacts) (content : ContentFacts) : List Finding :=
  (if metaTags.ogImage.content = "" then
    [⟨"meta", none, "Add Open Graph image",
      "Add og:image tag for better social media sharing."⟩]
   else []) ++
  (if metaTags.twitterCard.status = "missing" then
    [⟨"meta", none, "Add Twitter Card tags",
      "Implement Twitter Card meta tags for better Twitter sharing."⟩]
   else []) ++
  (if 0 < images.analysis.missingAltCount then
    [⟨"image", none, "Add missing alt text",
      "Add descriptive alt text to " ++ toString images.analysis.missingAltCount ++
        " images."⟩]
   else []) ++
  (if 0 < links.analysis.genericInternalLinks then
    [⟨"link", none, "Improve anchor text",
      "Replace generic anchor text (like \"click here\") with descriptive text for " ++
        toString links.analysis.genericInternalLinks ++ " links."⟩]
   else []) ++
  (if performance.score < 80 then
    [⟨"performance", none, "Optimize page load speed",
      "Reduce resource size and number to improve page loading time."⟩]
   else []) ++
  (if mobile.score < 80 then
    [⟨"mobile", none, "Improve mobile friendliness",
      "Enhance the responsive design for better mobile experience."⟩]
   else []) ++
  (if content.metrics.wordCount < 300 then
    [⟨"content", none, "Add more content",
      "Increase content length to at least 300 words for better search visibility."⟩]
   else [])

/-- The report value assembled by `analyzeSEO` (persistence-time fields such
as `id` and `createdAt` are added outside the core). -/
structure SeoAnalysis where
  url : String
  title : String
  description : String
  seoScore : ℤ
  metaTagsScore : ℤ
  contentScore : ℚ
  linksScore : Nat
  performanceScore : ℤ
  mobileScore : Nat
  metaTags : MetaTagFacts
  headings : HeadingFacts
  links : LinkFacts
  images : ImageFacts
  performanceMetrics : PerformanceFacts
  contentAnalysis : ContentFacts
  criticalIssues : List Finding
  strengths : List Finding
  improvementAreas : List Finding
deriving DecidableEq

/-- The analysis core of `analyzeSEO` in `routes.ts`: everything after the
(external) fetch of the page — run the seven extractors over the parsed
document, aggregate the overall score, classify findings and assemble the
report.  `none` models the uncaught exception that escapes `extractImages`
when an image `src` fails URL resolution; every other path is total. -/
def analyzeSEO (ops : UrlOps) (url : String) (d : Doc) : Option SeoAnalysis :=
  match extractImages ops d url with
  | none => none
  | some images =>
    let metaTags := extractMetaTags d url
    let headings := extractHeadings d
    let links := extractLinks ops d url
    let performance := estimatePerformance d
    let mobile := checkMobileFriendliness d
    let content := analyzeContent d
    let linksScore : Nat :=
      if links.analysis.status = "good" then 80
      else if links.analysis.status = "needs_improvement" then 60 else 40
    let overallScore := calculateOverallScore (metaTags.score : ℚ)
      (if headings.analysis.hasProperH1 then 100 else 50)
      (images.analysis.altTextPercentage : ℚ) (linksScore : ℚ)
      (performance.score : ℚ) (mobile.score : ℚ) content.score
    some
      { url := url
        title := metaTags.title.content
        description := metaTags.description.content
        seoScore := overallScore
        metaTagsScore := metaTags.score
        contentScore := content.score
        linksScore := linksScore
        performanceScore := performance.score
        mobileScore := mobile.score
        metaTags := metaTags
        headings := headings
        links := links
        images := images
        performanceMetrics := performance
        contentAnalysis := content
        criticalIssues := identifyCriticalIssues metaTags headings images links performance
        strengths := identifyStrengths metaTags headings images links performance mobile content
        improvementAreas :=
          identifyImprovementAreas metaTags headings images links performance mobile content }

/-! ### Spec-side definition and concrete inputs used by the theorems -/

/-- The number of whitespace-separated tokens of a string, following the
spec's words ("wordCount = count of whitespace-separated tokens"): the
maximal non-whitespace runs, i.e. the non-empty pieces of the whitespace
split. -/
def specTokenCount (s : String) : Nat :=
  ((splitRuns isWsChar s.toList).filter fun t => !t.isEmpty).length

/-- A benign URL collaborator for concrete runs: every reference resolves,
and the origin is the example origin. -/
def benignOps : UrlOps where
  resolve := fun href _ => some href
  origin := fun _ => "https://example.com"

/-- A URL collaborator recording the real behaviour of WHATWG resolution on a
malformed reference: `new URL('//[', base)` throws a `TypeError` (a
protocol-relative reference whose host begins an invalid bracketed address),
while ordinary references resolve. -/
def throwingOps : UrlOps where
  resolve := fun href _ => if href = "//[" then none else some href
  origin := fun _ => "https://example.com"

/-- The example source URL used in concrete runs. -/
def exUrl : String := "https://example.com/"

/-- A document whose single image has the unresolvable src `//[`. -/
def docBadImg : Doc := { emptyDoc with imgs := [⟨"//[", "an alt text"⟩] }

/-- A document with one relative-src image carrying alt text. -/
def docOneImg : Doc := { emptyDoc with imgs := [⟨"/a.png", "a picture"⟩] }

/-- A document with one `<h1>` and one `<h2>` (a logical heading structure). -/
def docHeadings : Doc := { emptyDoc with h1 := ["Main topic"], h2 := ["Subtopic"] }

/-- A document whose body text has three words and two sentence segments, so
that the average words per sentence is 3/2 and the readability score 59.5. -/
def docFrac : Doc := { emptyDoc with bodyText := "a b. c" }

/-- The report produced by the core on the empty document with the benign
collaborator (used to instantiate hypothesis-carrying theorems). -/
def emptyReport : SeoAnalysis :=
  (analyzeSEO benignOps exUrl emptyDoc).get (by decide)

/-- The image fact bundle the extractor produces for a document with no
images: a vacuous 100% alt-text pass. -/
def emptyImageFacts : ImageFacts :=
  ⟨[], ⟨0, 0, 0, 100, "good"⟩⟩

/-- The skip test at the top of the `$('a').each` loop: empty href,
`javascript:` scheme, or a bare `#`. -/
def skippedHref (a : AnchorEl) : Bool :=
  a.href == "" || jsStartsWith a.href ("javascript:") || a.href == "#"

/-- An anchor that contributes to the link lists: not skipped by the href
test and (when its href needs resolving) successfully resolved. -/
def keptAnchor (ops : UrlOps) (url : String) (a : AnchorEl) : Bool :=
  (linkDest ops url a).isSome

/-- Two adjacent characters are not both whitespace (the shape of text whose
whitespace runs have been collapsed). -/
def sepOk (a b : Char) : Prop :=
  isWsChar a = false ∨ isWsChar b = false

/-! ### Bridge lemmas between the JS-style helpers and the Mathlib order API -/

theorem jsMin_eq (a b : ℚ) : jsMin a b = min a b := by
  rw [jsMin, min_def]

theorem jsMax_eq (a b : ℚ) : jsMax a b = max a b := by
  rw [jsMax, max_def]

theorem jsMinI_eq (a b : ℤ) : jsMinI a b = min a b := by
  rw [jsMinI, min_def]

theorem jsMaxI_eq (a b : ℤ) : jsMaxI a b = max a b := by
  rw [jsMaxI, max_def]

theorem jsAbs_eq (q : ℚ) : jsAbs q = |q| := by
  rw [jsAbs]
  split_ifs with h
  · exact (abs_of_neg h).symm
  · exact (abs_of_nonneg (not_lt.mp h)).symm

theorem jsRound_eq (q : ℚ) : jsRound q = ⌊q + 1/2⌋ :=
  (Rat.floor_def' _).trans Rat.floor_def.symm

theorem jsRound_nonneg {q : ℚ} (h : 0 ≤ q) : 0 ≤ jsRound q := by
  rw [jsRound_eq]
  exact Int.le_floor.mpr (by push_cast; linarith)

theorem jsRound_le {q : ℚ} {c : ℤ} (h : q ≤ c) : jsRound q ≤ c := by
  rw [jsRound_eq]
  have : ⌊q + 1/2⌋ < c + 1 := Int.floor_lt.mpr (by push_cast; linarith)
  omega

theorem jsRound_intCast (z : ℤ) : jsRound (z : ℚ) = z := by
  rw [jsRound_eq]
  rw [show ((z : ℚ) + 1/2) = (z : ℚ) + (1/2 : ℚ) from rfl, Int.floor_int_add]
  norm_num

/-! ### Range facts for the individual scoring functions -/

theorem titlePoints_bounds (t : String) : 0 ≤ titlePoints t ∧ titlePoints t ≤ 20 := by
  unfold titlePoints
  split_ifs <;> omega

theorem descriptionPoints_bounds (s : String) :
    0 ≤ descriptionPoints s ∧ descriptionPoints s ≤ 20 := by
  unfold descriptionPoints
  split_ifs <;> omega

theorem openGraphPoints_bounds (a b c : String) :
    0 ≤ openGraphPoints a b c ∧ openGraphPoints a b c ≤ 20 := by
  unfold openGraphPoints
  split_ifs <;> omega

theorem twitterPoints_bounds (c : String) :
    0 ≤ twitterPoints c ∧ twitterPoints c ≤ 20 := by
  unfold twitterPoints
  split_ifs <;> omega

/-- The final `Math.round((score / maxScore) * 100)` of the meta tags score is
the identity on the raw integer point total. -/
theorem calculateMetaTagsScore_eq (t s c v ot od oi tw : String) :
    calculateMetaTagsScore t s c v ot od oi tw =
      titlePoints t + descriptionPoints s + (if c ≠ "" then 10 else 0) +
        (if v ≠ "" then 10 else 0) + openGraphPoints ot od oi + twitterPoints tw := by
  unfold calculateMetaTagsScore
  dsimp only
  rw [div_mul_cancel₀ _ (by norm_num : (100:ℚ) ≠ 0), jsRound_intCast]

theorem calculateMetaTagsScore_bounds (t s c v ot od oi tw : String) :
    0 ≤ calculateMetaTagsScore t s c v ot od oi tw ∧
      calculateMetaTagsScore t s c v ot od oi tw ≤ 100 := by
  rw [calculateMetaTagsScore_eq]
  have h1 := titlePoints_bounds t
  have h2 := descriptionPoints_bounds s
  have h3 := openGraphPoints_bounds ot od oi
  have h4 := twitterPoints_bounds tw
  split_ifs <;> omega

theorem calculatePerformanceScore_bounds (t : Nat) (lt : ℚ) (s : Nat) :
    0 ≤ calculatePerformanceScore t lt s ∧ calculatePerformanceScore t lt s ≤ 100 := by
  unfold calculatePerformanceScore
  rw [jsMaxI_eq, jsMinI_eq]
  exact ⟨le_max_left _ _, max_le (by norm_num) (min_le_left _ _)⟩

theorem calculateMobileScore_le (v m r : Bool) : calculateMobileScore v m r ≤ 100 := by
  cases v <;> cases m <;> cases r <;> decide

/-- The readability clamp `Math.min(100, Math.max(0, x))` lies in `[0, 100]`. -/
theorem jsClamp_bounds (x : ℚ) :
    0 ≤ jsMin 100 (jsMax 0 x) ∧ jsMin 100 (jsMax 0 x) ≤ 100 := by
  rw [jsMin_eq, jsMax_eq]
  exact ⟨le_min (by norm_num) (le_max_left 0 x), min_le_left _ _⟩

theorem calculateContentScore_bounds (wc pc : Nat) {rs : ℚ} (h0 : 0 ≤ rs) :
    0 ≤ calculateContentScore wc pc rs ∧ calculateContentScore wc pc rs ≤ 100 := by
  unfold calculateContentScore
  rw [jsMin_eq]
  refine ⟨le_min (by norm_num) ?_, min_le_left _ _⟩
  split_ifs <;> nlinarith

theorem calculateOverallScore_bounds {m h i l p mo c : ℚ}
    (hm : 0 ≤ m ∧ m ≤ 100) (hh : 0 ≤ h ∧ h ≤ 100) (hi : 0 ≤ i ∧ i ≤ 100)
    (hl : 0 ≤ l ∧ l ≤ 100) (hp : 0 ≤ p ∧ p ≤ 100) (hmo : 0 ≤ mo ∧ mo ≤ 100)
    (hc : 0 ≤ c ∧ c ≤ 100) :
    0 ≤ calculateOverallScore m h i l p mo c ∧
      calculateOverallScore m h i l p mo c ≤ 100 := by
  unfold calculateOverallScore
  constructor
  · exact jsRound_nonneg (by nlinarith [hm.1, hh.1, hi.1, hl.1, hp.1, hmo.1, hc.1])
  · exact jsRound_le (by push_cast; nlinarith [hm.2, hh.2, hi.2, hl.2, hp.2, hmo.2, hc.2])

/-! ### Facts about the images extractor -/

theorem collectImages_length (ops : UrlOps) (url : String) {l : List ImgEl}
    {rs : List ImageRec} (h : collectImages ops url l = some rs) :
    rs.length = l.length := by
  induction l generalizing rs with
  | nil =>
    simp only [collectImages] at h
    cases h
    rfl
  | cons el rest ih =>
    simp only [collectImages] at h
    split at h
    · exact Option.noConfusion h
    · split at h
      · exact Option.noConfusion h
      · next rs' hc =>
        cases h
        simp [ih hc]

theorem collectImages_isSome (ops : UrlOps) (url : String) {l : List ImgEl}
    (h : ∀ el ∈ l, jsStartsWith el.src ("http") = false →
      (ops.resolve el.src url).isSome = true) :
    (collectImages ops url l).isSome = true := by
  induction l with
  | nil => rfl
  | cons el rest ih =>
    have hstep : (imgStep ops url el).isSome = true := by
      unfold imgStep
      cases hs : jsStartsWith el.src ("http")
      · have hr := h el (by simp) hs
        cases hres : ops.resolve el.src url
        · rw [hres] at hr
          exact absurd hr (by simp)
        · simp [hs, hres]
      · simp [hs]
    obtain ⟨r, hr⟩ := Option.isSome_iff_exists.mp hstep
    obtain ⟨rs, hrs⟩ := Option.isSome_iff_exists.mp
      (ih fun e he hs => h e (by simp [he]) hs)
    simp [collectImages, hr, hrs]

theorem extractImages_altPct_bounds {ops : UrlOps} {d : Doc} {url : String}
    {a : ImageFacts} (h : extractImages ops d url = some a) :
    0 ≤ a.analysis.altTextPercentage ∧ a.analysis.altTextPercentage ≤ 100 := by
  unfold extractImages at h
  split at h
  · exact Option.noConfusion h
  · next images hc =>
    cases h
    dsimp only
    split_ifs with ht
    · constructor
      · exact jsRound_nonneg (by positivity)
      · apply jsRound_le
        push_cast
        have hw : ((images.filter (·.hasAlt)).length : ℚ) ≤ (images.length : ℚ) := by
          exact_mod_cast List.length_filter_le _ _
        have ht' : (0:ℚ) < (images.length : ℚ) := by exact_mod_cast ht
        rw [div_mul_eq_mul_div, div_le_iff₀ ht']
        nlinarith
    · norm_num

/-! ### The shape of whitespace-collapsed text and the word count -/

/-- State invariant of the `replace(/\s+/g, ' ')` fold: the output never has
two adjacent whitespace characters; when the flag is set the output starts
with the space just written, and when it is clear the output starts with a
non-whitespace character (or is empty). -/
theorem replaceWsRuns_invariant (l : List Char) :
    List.Chain' sepOk (l.foldr replaceStep ([], false)).1 ∧
    ((l.foldr replaceStep ([], false)).2 = true →
      ∃ t, (l.foldr replaceStep ([], false)).1 = spaceChar :: t) ∧
    ((l.foldr replaceStep ([], false)).2 = false →
      ∀ c ∈ (l.foldr replaceStep ([], false)).1.head?, isWsChar c = false) := by
  induction l with
  | nil => exact ⟨List.chain'_nil, by simp, by simp⟩
  | cons c cs ih =>
    obtain ⟨ih1, ih2, ih3⟩ := ih
    simp only [List.foldr_cons]
    set st := cs.foldr replaceStep ([], false) with hst
    unfold replaceStep
    cases hw : isWsChar c
    · simp only [hw, Bool.false_eq_true, if_false]
      refine ⟨List.chain'_cons'.mpr ⟨fun y _ => Or.inl hw, ih1⟩, by simp, ?_⟩
      intro _ x hx
      simp only [List.head?_cons, Option.mem_def, Option.some.injEq] at hx
      subst hx
      exact hw
    · simp only [hw, if_true]
      cases hf : st.2
      · simp only [hf, Bool.false_eq_true, if_false]
        refine ⟨List.chain'_cons'.mpr ⟨fun y hy => Or.inr (ih3 hf y hy), ih1⟩,
          fun _ => ⟨st.1, rfl⟩, by simp⟩
      · simp only [hf, if_true]
        exact ⟨ih1, fun _ => ih2 hf, fun h => by simp at h⟩

/-- The collapsed text has no two adjacent whitespace characters. -/
theorem chain'_replaceWsRuns (l : List Char) :
    List.Chain' sepOk (replaceWsRuns l) :=
  (replaceWsRuns_invariant l).1

/-- The head of `dropWhile p` does not satisfy `p`. -/
theorem dropWhile_head_isWs (p : Char → Bool) (l : List Char) :
    ∀ c ∈ (l.dropWhile p).head?, p c = false := by
  induction l with
  | nil => simp
  | cons a as ih =>
    cases hp : p a
    · intro c hc
      rw [List.dropWhile_cons, if_neg (by simp [hp])] at hc
      simp only [List.head?_cons, Option.mem_def, Option.some.injEq] at hc
      subst hc
      exact hp
    · intro c hc
      rw [List.dropWhile_cons, if_pos (by simp [hp])] at hc
      exact ih c hc

/-- Trimming preserves the no-adjacent-whitespace property. -/
theorem chain'_trimWs (l : List Char) (h : List.Chain' sepOk l) :
    List.Chain' sepOk (trimWs l) := by
  unfold trimWs
  have h1 : List.Chain' sepOk (l.dropWhile isWsChar) :=
    h.suffix (List.dropWhile_suffix _)
  have h2 : List.Chain' sepOk (l.dropWhile isWsChar).reverse :=
    List.chain'_reverse.mpr (h1.imp fun _ _ hxy => Or.symm hxy)
  have h3 : List.Chain' sepOk ((l.dropWhile isWsChar).reverse.dropWhile isWsChar) :=
    h2.suffix (List.dropWhile_suffix _)
  exact List.chain'_reverse.mpr (h3.imp fun _ _ hxy => Or.symm hxy)

/-- The trimmed text starts with a non-whitespace character (if nonempty). -/
theorem trimWs_head (l : List Char) :
    ∀ c ∈ (trimWs l).head?, isWsChar c = false := by
  intro c hc
  unfold trimWs at hc
  rw [List.head?_reverse] at hc
  obtain ⟨pre, hpre⟩ := List.dropWhile_suffix
    (l := (l.dropWhile isWsChar).reverse) isWsChar
  rw [Option.mem_def] at hc
  have hrev : (l.dropWhile isWsChar).reverse.getLast? = some c := by
    rw [← hpre, List.getLast?_append, hc]
    rfl
  rw [List.getLast?_reverse] at hrev
  exact dropWhile_head_isWs isWsChar l c hrev

/-- The trimmed text ends with a non-whitespace character (if nonempty). -/
theorem trimWs_getLast (l : List Char) :
    ∀ c ∈ (trimWs l).getLast?, isWsChar c = false := by
  intro c hc
  unfold trimWs at hc
  rw [List.getLast?_reverse] at hc
  exact dropWhile_head_isWs isWsChar _ c hc

/-- State invariant of the split fold on text with no adjacent whitespace and
a non-whitespace last character: the token list is nonempty, all tokens except
possibly the head are nonempty, and the head token is empty only while the
flag records that the head of the remaining input is whitespace. -/
theorem splitRuns_state (l : List Char) (hchain : List.Chain' sepOk l)
    (hlast : ∀ c ∈ l.getLast?, isWsChar c = false) :
    ∃ t ts, (l.foldr (splitStep isWsChar) ([[]], false)).1 = t :: ts ∧
      (∀ x ∈ ts, x ≠ []) ∧
      ((l.foldr (splitStep isWsChar) ([[]], false)).2 = true →
        t = [] ∧ ∃ c ∈ l.head?, isWsChar c = true) ∧
      ((l.foldr (splitStep isWsChar) ([[]], false)).2 = false → t ≠ [] ∨ l = []) := by
  induction l with
  | nil => exact ⟨[], [], rfl, by simp, by simp, fun _ => Or.inr rfl⟩
  | cons c cs ih =>
    have hlast' : ∀ x ∈ cs.getLast?, isWsChar x = false := by
      intro x hx
      apply hlast
      cases cs with
      | nil => simp at hx
      | cons d ds => rw [List.getLast?_cons_cons]; exact hx
    obtain ⟨t, ts, h1, h2, h3, h4⟩ := ih hchain.tail hlast'
    simp only [List.foldr_cons]
    set st := cs.foldr (splitStep isWsChar) ([[]], false) with hst
    unfold splitStep
    cases hw : isWsChar c
    · simp only [hw, Bool.false_eq_true, if_false, h1]
      exact ⟨c :: t, ts, rfl, h2, by simp, fun _ => Or.inl (by simp)⟩
    · simp only [hw, if_true]
      cases hf : st.2
      · simp only [hf, Bool.false_eq_true, if_false]
        rcases h4 hf with ht | hcs
        · refine ⟨[], t :: ts, by rw [h1], ?_, ?_, by simp⟩
          · intro x hx
            rcases List.mem_cons.mp hx with hx | hx
            · subst hx; exact ht
            · exact h2 x hx
          · exact fun _ => ⟨rfl, c, by simp, hw⟩
        · exfalso
          subst hcs
          have := hlast c (by simp)
          rw [hw] at this
          exact Bool.noConfusion this
      · simp only [hf, if_true]
        exact ⟨t, ts, h1, h2, fun _ => ⟨(h3 hf).1, c, by simp, hw⟩, by simp [hf]⟩

/-- On nonempty text with no whitespace at either end and no adjacent
whitespace (the shape of nonempty collapsed-and-trimmed text), every token of
the whitespace split is nonempty. -/
theorem splitRuns_tokens_ne_nil {l : List Char} (hne : l ≠ [])
    (hchain : List.Chain' sepOk l)
    (hhead : ∀ c ∈ l.head?, isWsChar c = false)
    (hlast : ∀ c ∈ l.getLast?, isWsChar c = false) :
    ∀ x ∈ splitRuns isWsChar l, x ≠ [] := by
  obtain ⟨t, ts, h1, h2, h3, h4⟩ := splitRuns_state l hchain hlast
  have hflag : (l.foldr (splitStep isWsChar) ([[]], false)).2 = false := by
    cases hf : (l.foldr (splitStep isWsChar) ([[]], false)).2
    · rfl
    · obtain ⟨-, c, hc, hw⟩ := h3 hf
      rw [hhead c hc] at hw
      exact Bool.noConfusion hw
  have ht : t ≠ [] := (h4 hflag).resolve_right hne
  intro x hx
  rw [splitRuns, h1] at hx
  rcases List.mem_cons.mp hx with hx | hx
  · subst hx; exact ht
  · exact h2 x hx

/-- The JS split always produces at least one piece. -/
theorem splitRuns_length_pos (p : Char → Bool) (l : List Char) :
    0 < (splitRuns p l).length := by
  suffices h : ∃ t ts, (l.foldr (splitStep p) ([[]], false)).1 = t :: ts by
    obtain ⟨t, ts, h⟩ := h
    rw [splitRuns, h]
    simp
  induction l with
  | nil => exact ⟨[], [], rfl⟩
  | cons c cs ih =>
    obtain ⟨t, ts, h⟩ := ih
    simp only [List.foldr_cons]
    set st := cs.foldr (splitStep p) ([[]], false) with hst
    unfold splitStep
    cases hp : p c
    · simp only [hp, Bool.false_eq_true, if_false, h]
      exact ⟨c :: t, ts, rfl⟩
    · simp only [hp, if_true]
      cases hf : st.2
      · simp only [hf, Bool.false_eq_true, if_false]
        exact ⟨[], _, rfl⟩
      · simp only [hf, if_true]
        exact ⟨t, ts, h⟩

/-- The word count of `analyzeContent` equals the spec's token count, floored
at one: the JS split of the nonempty cleaned text is exactly its list of
whitespace-separated tokens, while the empty cleaned text contributes the
single empty token of `"".split(/\s+/)`. -/
theorem wordCount_eq_max (d : Doc) :
    (analyzeContent d).metrics.wordCount =
      max 1 (specTokenCount (cleanText d.bodyText)) := by
  have hshow : (analyzeContent d).metrics.wordCount =
      (splitRuns isWsChar (cleanTextL d.bodyText.toList)).length := rfl
  have htok : specTokenCount (cleanText d.bodyText) =
      ((splitRuns isWsChar (cleanTextL d.bodyText.toList)).filter
        fun t => !t.isEmpty).length := rfl
  rw [hshow, htok]
  by_cases hne : cleanTextL d.bodyText.toList = []
  · rw [hne]
    decide
  · have hchain : List.Chain' sepOk (cleanTextL d.bodyText.toList) :=
      chain'_trimWs _ (chain'_replaceWsRuns _)
    have hall := splitRuns_tokens_ne_nil hne hchain
      (trimWs_head (replaceWsRuns d.bodyText.toList))
      (trimWs_getLast (replaceWsRuns d.bodyText.toList))
    have hfil : (splitRuns isWsChar (cleanTextL d.bodyText.toList)).filter
        (fun t => !t.isEmpty) = splitRuns isWsChar (cleanTextL d.bodyText.toList) := by
      apply List.filter_eq_self.mpr
      intro x hx
      cases x with
      | nil => exact absurd rfl (hall [] hx)
      | cons y ys => rfl
    rw [hfil]
    exact (Nat.max_eq_right (splitRuns_length_pos _ _)).symm

/-! ### Further helper lemmas for the claim theorems -/

theorem calculateMobileScore_eq (v m r : Bool) :
    calculateMobileScore v m r =
      (if v then 50 else 0) + (if m then 25 else 0) + (if r then 25 else 0) +
      (if v ∧ ¬m ∧ ¬r then 20 else 0) := by
  cases v <;> cases m <;> cases r <;> decide

theorem checkLogicalHeadingStructure_h1 (hs : HeadingsByLevel)
    (h : checkLogicalHeadingStructure hs = true) : hs.h1.length = 1 := by
  by_cases hn : hs.h1.length = 1
  · exact hn
  · simp [checkLogicalHeadingStructure, hn] at h

theorem calculateHeadingStatus_needs (n : Nat) (b : Bool) (himp : b = true → n = 1) :
    (calculateHeadingStatus n b = "needs_improvement" ↔ (n = 1 ∧ b = false)) := by
  unfold calculateHeadingStatus
  cases b
  · by_cases hn : n = 1 <;> simp [hn]
  · simp [himp rfl]

theorem filterMap_of_none {α β : Type} (f : α → Option β) (g : α → Bool) (l : List α)
    (h : ∀ a, g a = false → f a = none) :
    (l.filter g).filterMap f = l.filterMap f := by
  induction l with
  | nil => rfl
  | cons a as ih =>
    cases hg : g a
    · rw [List.filter_cons, if_neg (by simp [hg]), List.filterMap_cons, h a hg, ih]
    · rw [List.filter_cons, if_pos (by simp [hg])]
      cases hfa : f a <;> simp [List.filterMap_cons, hfa, ih]

/-- Removing anchors on which the skip-and-resolve step yields nothing does
not change the output of the links extractor at all. -/
theorem extractLinks_filter_eq (ops : UrlOps) (url : String) (d : Doc)
    (g : AnchorEl → Bool) (hg : ∀ a, g a = false → linkDest ops url a = none) :
    extractLinks ops { d with anchors := d.anchors.filter g } url =
      extractLinks ops d url := by
  unfold extractLinks
  dsimp only
  rw [filterMap_of_none _ g _ fun a ha => by rw [hg a ha],
    filterMap_of_none _ g _ fun a ha => by rw [hg a ha]]

/-! ### The claim theorems -/

/-- C4: for every document, the mobile score is 50 for a present viewport,
plus 25 for media queries, plus 25 for responsive indicators, plus a 20
fallback credit exactly when the viewport is present and neither of the other
two signals holds; and no combination of inputs pushes the score above 100. -/
theorem mobileScore_formula_and_cap (d : Doc) :
    ((checkMobileFriendliness d).score =
      (if (checkMobileFriendliness d).features.hasViewport then 50 else 0) +
      (if (checkMobileFriendliness d).features.hasMediaQueries then 25 else 0) +
      (if (checkMobileFriendliness d).features.hasResponsiveIndicators then 25 else 0) +
      (if (checkMobileFriendliness d).features.hasViewport ∧
          ¬(checkMobileFriendliness d).features.hasMediaQueries ∧
          ¬(checkMobileFriendliness d).features.hasResponsiveIndicators then 20
       else 0)) ∧
    (checkMobileFriendliness d).score ≤ 100 :=
  ⟨calculateMobileScore_eq _ _ _, calculateMobileScore_le _ _ _⟩

/-- C10: for every document, a logical heading structure forces exactly one
`h1` (so `hasProperH1`), and the heading status is `needs_improvement`
exactly when there is exactly one `h1` but the structure is not logical; the
combination "logical structure without exactly one h1" is unreachable. -/
theorem headingStatus_characterization (d : Doc) :
    ((extractHeadings d).analysis.hasLogicalStructure = true →
      (extractHeadings d).analysis.h1Count = 1) ∧
    ((extractHeadings d).analysis.status = "needs_improvement" ↔
      ((extractHeadings d).analysis.h1Count = 1 ∧
        (extractHeadings d).analysis.hasLogicalStructure = false)) :=
  ⟨fun h => checkLogicalHeadingStructure_h1 _ h,
    calculateHeadingStatus_needs _ _ (fun h => checkLogicalHeadingStructure_h1 _ h)⟩

/-- Witness for C10 at a concrete document with one `h1` and one `h2`. -/
theorem headingStatus_characterization_witness :
    (extractHeadings docHeadings).analysis.h1Count = 1 ∧
    ((extractHeadings docHeadings).analysis.status = "needs_improvement" ↔
      ((extractHeadings docHeadings).analysis.h1Count = 1 ∧
        (extractHeadings docHeadings).analysis.hasLogicalStructure = false)) :=
  ⟨(headingStatus_characterization docHeadings).1 (by decide),
    (headingStatus_characterization docHeadings).2⟩

/-- C7: anchors with an empty href, a `javascript:` href or a bare `#` href
contribute to neither the internal nor the external link sequence, and
anchors whose href fails URL resolution are skipped silently — removing
either kind of anchor from the document leaves the entire link fact bundle
unchanged (and the extractor is total by construction). -/
theorem links_skip_excluded (ops : UrlOps) (url : String) (d : Doc) :
    (extractLinks ops { d with anchors := d.anchors.filter fun a => !skippedHref a } url =
      extractLinks ops d url) ∧
    (extractLinks ops { d with anchors := d.anchors.filter (keptAnchor ops url) } url =
      extractLinks ops d url) := by
  constructor
  · apply extractLinks_filter_eq
    intro a ha
    have hs : skippedHref a = true := by simpa using ha
    simp only [skippedHref, Bool.or_eq_true, beq_iff_eq] at hs
    unfold linkDest
    rw [if_pos (by tauto)]
  · apply extractLinks_filter_eq
    intro a ha
    unfold keptAnchor at ha
    cases h : linkDest ops url a
    · rfl
    · rw [h] at ha
      simp at ha

/-- C5 fails on a document whose body contains no text: the cleaned text is
empty, JS `"".split(/\s+/)` is `[""]`, and the word count is 1 — not the
token count 0 the claim requires. -/
theorem wordCount_empty_counterexample :
    (analyzeContent emptyDoc).metrics.wordCount ≠
      specTokenCount (cleanText emptyDoc.bodyText) ∧
    (analyzeContent emptyDoc).metrics.wordCount = 1 ∧
    specTokenCount (cleanText emptyDoc.bodyText) = 0 := by
  decide

/-- C5 (amended): for every document, wordCount equals the number of
whitespace-separated tokens of the whitespace-collapsed body text whenever
that text has at least one token, and is 1 — not 0 — when the body has no
text: wordCount = max 1 (token count). -/
theorem wordCount_spec (d : Doc) :
    (analyzeContent d).metrics.wordCount =
      max 1 (specTokenCount (cleanText d.bodyText)) :=
  wordCount_eq_max d

/-- C3 fails for the images extractor: `extractImages` resolves `src`
attributes without a guard, so a malformed relative src that URL resolution
rejects (such as `//[`, whose bracketed host is invalid) aborts the whole
extraction with a thrown `TypeError`. -/
theorem extractImages_throw_counterexample :
    extractImages throwingOps docBadImg exUrl = none := by
  decide

/-- C3 (amended): the meta tags, headings, links, performance, mobile and
content extractors are total over any parsed document (they are total Lean
functions by construction, the links extractor catching failed resolutions),
and the images extractor returns a fact bundle provided every `src` that does
not start with `http` resolves; only an unresolvable image src makes it
throw. -/
theorem extractImages_total_when_resolvable (ops : UrlOps) (d : Doc) (url : String)
    (h : ∀ el ∈ d.imgs, jsStartsWith el.src ("http") = false →
      (ops.resolve el.src url).isSome = true) :
    (extractImages ops d url).isSome = true := by
  obtain ⟨rs, hrs⟩ := Option.isSome_iff_exists.mp (collectImages_isSome ops url h)
  simp [extractImages, hrs]

/-- Witness for the amended C3 at a document with one relative-src image. -/
theorem extractImages_total_when_resolvable_witness :
    (extractImages benignOps docOneImg exUrl).isSome = true :=
  extractImages_total_when_resolvable benignOps docOneImg exUrl (by decide)

/-- C1: whenever the analysis completes, the overall SEO score is the rounded
fixed-weight combination `meta*0.20 + headings*0.10 + altText*0.10 +
links*0.15 + performance*0.20 + mobile*0.15 + content*0.10`, with the
headings proxy 100/50 by `hasProperH1` and the links proxy 80/60/40 by link
status. -/
theorem overallScore_formula (ops : UrlOps) (url : String) (d : Doc)
    (ifacts : ImageFacts) (h : extractImages ops d url = some ifacts) :
    ∃ a : SeoAnalysis, analyzeSEO ops url d = some a ∧
      a.seoScore = jsRound (((extractMetaTags d url).score : ℚ) * 0.2 +
        (if (extractHeadings d).analysis.hasProperH1 then (100:ℚ) else 50) * 0.1 +
        (ifacts.analysis.altTextPercentage : ℚ) * 0.1 +
        (if (extractLinks ops d url).analysis.status = "good" then (80:ℚ)
          else if (extractLinks ops d url).analysis.status = "needs_improvement"
            then (60:ℚ) else 40) * 0.15 +
        ((estimatePerformance d).score : ℚ) * 0.2 +
        ((checkMobileFriendliness d).score : ℚ) * 0.15 +
        (analyzeContent d).score * 0.1) := by
  unfold analyzeSEO
  rw [h]
  refine ⟨_, rfl, ?_⟩
  show jsRound _ = jsRound _
  congr 1
  simp only [apply_ite (fun n : Nat => (n : ℚ)), Nat.cast_ofNat]

/-- Witness for C1 on the empty document. -/
theorem overallScore_formula_witness :
    ∃ a : SeoAnalysis, analyzeSEO benignOps exUrl emptyDoc = some a ∧
      a.seoScore = jsRound (((extractMetaTags emptyDoc exUrl).score : ℚ) * 0.2 +
        (if (extractHeadings emptyDoc).analysis.hasProperH1 then (100:ℚ) else 50) * 0.1 +
        ((emptyImageFacts.analysis.altTextPercentage : ℤ) : ℚ) * 0.1 +
        (if (extractLinks benignOps emptyDoc exUrl).analysis.status = "good" then (80:ℚ)
          else if (extractLinks benignOps emptyDoc exUrl).analysis.status =
            "needs_improvement" then (60:ℚ) else 40) * 0.15 +
        ((estimatePerformance emptyDoc).score : ℚ) * 0.2 +
        ((checkMobileFriendliness emptyDoc).score : ℚ) * 0.15 +
        (analyzeContent emptyDoc).score * 0.1) :=
  overallScore_formula benignOps exUrl emptyDoc emptyImageFacts (by decide)

/-- C2: whenever the analysis completes, every sub-score — meta tags score,
headings proxy, alt-text percentage, links proxy, performance score, mobile
score, content score, readability score — lies in `[0, 100]`, and so does the
overall score. -/
theorem scores_in_range (ops : UrlOps) (url : String) (d : Doc) (a : SeoAnalysis)
    (h : analyzeSEO ops url d = some a) :
    (0 ≤ a.metaTagsScore ∧ a.metaTagsScore ≤ 100) ∧
    ((0:ℚ) ≤ (if a.headings.analysis.hasProperH1 then (100:ℚ) else 50) ∧
      (if a.headings.analysis.hasProperH1 then (100:ℚ) else 50) ≤ 100) ∧
    (0 ≤ a.images.analysis.altTextPercentage ∧
      a.images.analysis.altTextPercentage ≤ 100) ∧
    (a.linksScore ≤ 100) ∧
    (0 ≤ a.performanceScore ∧ a.performanceScore ≤ 100) ∧
    (a.mobileScore ≤ 100) ∧
    (0 ≤ a.contentScore ∧ a.contentScore ≤ 100) ∧
    (0 ≤ a.contentAnalysis.metrics.readabilityScore ∧
      a.contentAnalysis.metrics.readabilityScore ≤ 100) ∧
    (0 ≤ a.seoScore ∧ a.seoScore ≤ 100) := by
  unfold analyzeSEO at h
  split at h
  · exact Option.noConfusion h
  · next images heq =>
    cases h
    dsimp only
    have hm := calculateMetaTagsScore_bounds d.title d.metaDescription d.canonicalUrl
      (d.viewport.getD ("")) d.ogTitle d.ogDescription d.ogImage d.twitterCard
    have hi := extractImages_altPct_bounds heq
    have hrd := jsClamp_bounds
      (100 - jsAbs (((splitRuns isWsChar (cleanTextL d.bodyText.toList)).length : ℚ) /
        (if (splitRuns isSentencePunct (cleanTextL d.bodyText.toList)).length = 0 then 1
          else ((splitRuns isSentencePunct (cleanTextL d.bodyText.toList)).length : ℚ)) -
        15) * 3)
    have hc := calculateContentScore_bounds
      (splitRuns isWsChar (cleanTextL d.bodyText.toList)).length d.pCount hrd.1
    have hp := calculatePerformanceScore_bounds
      (d.scriptCount + d.cssCount + d.imgs.length + d.iframeCount)
      (((5 + (d.scriptCount + d.cssCount + d.imgs.length + d.iframeCount) : ℕ) : ℚ) / 10)
      d.scriptCount
    have hmo := calculateMobileScore_le (d.viewport.isSome)
      (jsIncludes d.styleText ("@media"))
      (jsIncludes d.htmlClass ("responsive") || jsIncludes d.bodyClass ("responsive"))
    have hhp : (0:ℚ) ≤ (if (extractHeadings d).analysis.hasProperH1 then (100:ℚ) else 50) ∧
        (if (extractHeadings d).analysis.hasProperH1 then (100:ℚ) else 50) ≤ 100 := by
      split_ifs <;> norm_num
    have hls : (if (extractLinks ops d url).analysis.status = "good" then (80:ℕ)
        else if (extractLinks ops d url).analysis.status = "needs_improvement"
          then (60:ℕ) else 40) ≤ 100 := by
      split_ifs <;> omega
    refine ⟨hm, hhp, hi, hls, hp, hmo, hc, hrd, ?_⟩
    apply calculateOverallScore_bounds
    · exact_mod_cast hm
    · exact hhp
    · exact_mod_cast hi
    · constructor
      · positivity
      · exact_mod_cast hls
    · exact_mod_cast hp
    · constructor
      · positivity
      · exact_mod_cast hmo
    · exact hc

/-- Witness for C2 at the report on the empty document. -/
theorem scores_in_range_witness :
    (0 ≤ emptyReport.metaTagsScore ∧ emptyReport.metaTagsScore ≤ 100) ∧
    ((0:ℚ) ≤ (if emptyReport.headings.analysis.hasProperH1 then (100:ℚ) else 50) ∧
      (if emptyReport.headings.analysis.hasProperH1 then (100:ℚ) else 50) ≤ 100) ∧
    (0 ≤ emptyReport.images.analysis.altTextPercentage ∧
      emptyReport.images.analysis.altTextPercentage ≤ 100) ∧
    (emptyReport.linksScore ≤ 100) ∧
    (0 ≤ emptyReport.performanceScore ∧ emptyReport.performanceScore ≤ 100) ∧
    (emptyReport.mobileScore ≤ 100) ∧
    (0 ≤ emptyReport.contentScore ∧ emptyReport.contentScore ≤ 100) ∧
    (0 ≤ emptyReport.contentAnalysis.metrics.readabilityScore ∧
      emptyReport.contentAnalysis.metrics.readabilityScore ≤ 100) ∧
    (0 ≤ emptyReport.seoScore ∧ emptyReport.seoScore ≤ 100) :=
  scores_in_range benignOps exUrl emptyDoc emptyReport (Option.some_get _).symm

/-- C8: with zero images the alt-text percentage is exactly 100 and the image
status is "good"; with at least one image the percentage is the rounded value
of `imagesWithAlt / totalImages * 100`. -/
theorem altTextPercentage_spec (ops : UrlOps) (url : String) (d : Doc)
    (a : ImageFacts) (h : extractImages ops d url = some a) :
    (d.imgs = [] →
      a.analysis.altTextPercentage = 100 ∧ a.analysis.status = "good") ∧
    (d.imgs ≠ [] → a.analysis.altTextPercentage =
      jsRound ((a.analysis.imagesWithAlt : ℚ) / (a.analysis.totalImages : ℚ) * 100)) := by
  unfold extractImages at h
  split at h
  · exact Option.noConfusion h
  · next images heq =>
    have hlen := collectImages_length ops url heq
    cases h
    dsimp only
    constructor
    · intro hnil
      have himg : images = [] := List.length_eq_zero.mp (by rw [hlen, hnil]; rfl)
      subst himg
      exact ⟨rfl, rfl⟩
    · intro hne
      have hpos : 0 < images.length := by
        rw [hlen]
        exact List.length_pos.mpr hne
      rw [if_pos hpos]

/-- Witness for C8 at the empty document (zero images). -/
theorem altTextPercentage_spec_witness :
    emptyImageFacts.analysis.altTextPercentage = 100 ∧
    emptyImageFacts.analysis.status = "good" :=
  (altTextPercentage_spec benignOps exUrl emptyDoc emptyImageFacts (by decide)).1 rfl

/-- C9: the analysis core is a pure function of the parsed document and the
source URL — two runs on identical input produce identical reports, all
facts, scores and finding lists included. -/
theorem analyze_deterministic (ops : UrlOps) (url : String) (d : Doc)
    (r₁ r₂ : SeoAnalysis) (h₁ : analyzeSEO ops url d = some r₁)
    (h₂ : analyzeSEO ops url d = some r₂) : r₁ = r₂ :=
  Option.some.inj (h₁.symm.trans h₂)

/-- Witness for C9 on the empty document. -/
theorem analyze_deterministic_witness : emptyReport = emptyReport :=
  analyze_deterministic benignOps exUrl emptyDoc emptyReport emptyReport
    (Option.some_get _).symm (Option.some_get _).symm

/-- C6 fails: on a document whose body text is `"a b. c"` the word count is 3
and the sentence count 2, so the average words per sentence is 3/2, the
readability score is `100 − |3/2 − 15|·3 = 59.5`, and the content score is
`59.5 · 0.5 = 29.75` — neither is an integer. -/
theorem contentScore_fractional_counterexample :
    (¬ ∃ z : ℤ, (analyzeContent docFrac).score = (z : ℚ)) ∧
    (¬ ∃ z : ℤ, (analyzeContent docFrac).metrics.readabilityScore = (z : ℚ)) := by
  have hw : (splitRuns isWsChar (cleanTextL docFrac.bodyText.toList)).length = 3 := by
    decide
  have hs : (splitRuns isSentencePunct (cleanTextL docFrac.bodyText.toList)).length = 2 := by
    decide
  have hp : docFrac.pCount = 0 := rfl
  have hrd : (analyzeContent docFrac).metrics.readabilityScore = 119/2 := by
    show jsMin 100 (jsMax 0 (100 - jsAbs
      (((splitRuns isWsChar (cleanTextL docFrac.bodyText.toList)).length : ℚ) /
        (if (splitRuns isSentencePunct (cleanTextL docFrac.bodyText.toList)).length = 0
          then 1
          else ((splitRuns isSentencePunct (cleanTextL docFrac.bodyText.toList)).length : ℚ)) -
        15) * 3)) = 119/2
    rw [hw, hs]
    norm_num [jsMin, jsMax, jsAbs]
  have hsc : (analyzeContent docFrac).score = 119/4 := by
    show calculateContentScore
      (splitRuns isWsChar (cleanTextL docFrac.bodyText.toList)).length docFrac.pCount
      ((analyzeContent docFrac).metrics.readabilityScore) = 119/4
    rw [hw, hp, hrd]
    norm_num [calculateContentScore, jsMin]
  constructor
  · rintro ⟨z, hz⟩
    rw [hsc] at hz
    have hz' : (119:ℤ) = z * 4 := by
      have := hz
      field_simp at this
      exact_mod_cast this
    omega
  · rintro ⟨z, hz⟩
    rw [hrd] at hz
    have hz' : (119:ℤ) = z * 2 := by
      have := hz
      field_simp at this
      exact_mod_cast this
    omega

/-- C6 (amended): every numeric sub-score of the report other than the
content score and the readability score is an integer — the meta tags score,
overall score and alt-text percentage are explicitly rounded, the links,
performance and mobile scores are integer-valued by construction; the
readability score and the content score built on it are unrounded rationals
and can be non-integral. -/
theorem scores_integral_amended (ops : UrlOps) (url : String) (d : Doc)
    (a : SeoAnalysis) (h : analyzeSEO ops url d = some a) :
    (∃ z : ℤ, (a.metaTagsScore : ℚ) = z) ∧ (∃ z : ℤ, (a.seoScore : ℚ) = z) ∧
    (∃ z : ℤ, (a.images.analysis.altTextPercentage : ℚ) = z) ∧
    (∃ z : ℤ, (a.linksScore : ℚ) = z) ∧ (∃ z : ℤ, (a.performanceScore : ℚ) = z) ∧
    (∃ z : ℤ, (a.mobileScore : ℚ) = z) :=
  ⟨⟨a.metaTagsScore, rfl⟩, ⟨a.seoScore, rfl⟩, ⟨a.images.analysis.altTextPercentage, rfl⟩,
    ⟨(a.linksScore : ℤ), by push_cast; rfl⟩, ⟨a.performanceScore, rfl⟩,
    ⟨(a.mobileScore : ℤ), by push_cast; rfl⟩⟩

/-- Witness for the amended C6 at the report on the empty document. -/
theorem scores_integral_amended_witness :
    (∃ z : ℤ, (emptyReport.metaTagsScore : ℚ) = z) ∧
    (∃ z : ℤ, (emptyReport.seoScore : ℚ) = z) ∧
    (∃ z : ℤ, (emptyReport.images.analysis.altTextPercentage : ℚ) = z) ∧
    (∃ z : ℤ, (emptyReport.linksScore : ℚ) = z) ∧
    (∃ z : ℤ, (emptyReport.performanceScore : ℚ) = z) ∧
    (∃ z : ℤ, (emptyReport.mobileScore : ℚ) = z) :=
  scores_integral_amended benignOps exUrl emptyDoc emptyReport (Option.some_get _).symm

end SeoInspector
